import Mathlib

/-!
# ArtGallery contract — shallow embedding and verification

Shallow embedding of the Solidity contract `ArtGallery` (ERC721-based NFT
art gallery with galleries, purchases with royalty/fee splitting, and
reviews).  Addresses are modelled as `Nat`, wei amounts as `Nat`, and the
contract storage as a record of total functions (Solidity mappings return
a zero-initialised default for absent keys, which we mirror with `Option`
plus an explicit default record where the contract reads through an
absent key).  Every public function is an `Except`-valued transition:
`Except.error` models a revert, which in the EVM rolls back all storage
writes, so a failing call leaves the pre-state in force (`commit`).

Solidity 0.8 checked arithmetic: `a - b` reverts on underflow; we model
that revert explicitly (`panicUnderflow`) before using `Nat` truncated
subtraction, so truncation never silently replaces a revert.
-/

/-- Revert causes, one constructor per distinct `require` message family in
the source (plus the ERC721 mint guards and the 0.8 underflow panic):
* `invalidArgument`: "Title cannot be empty", "Price must be greater than 0",
  "Royalty percentage cannot exceed 100", "Rating must be between 1 and 5",
  "Gallery ID cannot be empty", "Gallery name cannot be empty",
  "Fee cannot exceed 10%".
* `notFound`: "Artwork does not exist", "Gallery does not exist".
* `alreadyExists`: "Gallery ID already exists".
* `unauthorized`: `onlyOwner` / owner checks.
* `notForSale`: "Artwork is not for sale".
* `insufficientPayment`: "Insufficient payment".
* `alreadyRated`: "User has already rated this artwork".
* `panicUnderflow`: checked-subtraction underflow (Panic 0x11).
* `zeroAddress`, `alreadyMinted`: ERC721 `_mint` guards. -/
inductive GError where
  | invalidArgument
  | notFound
  | alreadyExists
  | unauthorized
  | notForSale
  | insufficientPayment
  | alreadyRated
  | panicUnderflow
  | zeroAddress
  | alreadyMinted
deriving Repr, DecidableEq

/-- `struct Artwork` from the source. -/
structure Artwork where
  title : String
  artist : Nat
  price : Nat
  forSale : Bool
  totalRatings : Nat
  ratingSum : Nat
  galleryId : String
  royaltyPercentage : Nat
  createdAt : Nat
deriving Repr, DecidableEq

/-- The zero-initialised `Artwork` a Solidity mapping yields on an
absent key. -/
def defaultArtwork : Artwork :=
  { title := "", artist := 0, price := 0, forSale := false,
    totalRatings := 0, ratingSum := 0, galleryId := "",
    royaltyPercentage := 0, createdAt := 0 }

/-- `struct Gallery` from the source. -/
structure Gallery where
  name : String
  curator : Nat
  artworkIds : List Nat
  isActive : Bool
  description : String
  createdAt : Nat
deriving Repr, DecidableEq

/-- `struct Review` from the source. -/
structure Review where
  reviewer : Nat
  comment : String
  rating : Nat
  timestamp : Nat
deriving Repr, DecidableEq

/-- The contract's events. -/
inductive Event where
  | ArtworkCreated (tokenId : Nat) (title : String) (artist : Nat) (price : Nat)
  | ArtworkSold (tokenId seller buyer price : Nat)
  | ReviewAdded (tokenId reviewer : Nat) (comment : String) (rating : Nat)
  | GalleryCreated (galleryId name : String) (curator : Nat)
  | PriceUpdated (tokenId newPrice : Nat)
  | RoyaltyPaid (tokenId artist amount : Nat)
deriving Repr, DecidableEq

/-- Contract storage.  `owners` is the ERC721 ownership mapping
(`_exists id` is `(owners id).isSome`); `contractOwner` is the `Ownable`
owner (fee recipient); `eventLog` is the emitted-event log in order. -/
structure GState where
  tokenIdCounter : Nat
  platformFee : Nat
  contractOwner : Nat
  owners : Nat → Option Nat
  tokenURIs : Nat → String
  artworks : Nat → Option Artwork
  galleries : String → Option Gallery
  reviews : Nat → List Review
  hasRated : Nat → Nat → Bool
  userArtworks : Nat → List Nat
  userGalleries : Nat → List String
  eventLog : List Event

/-- State right after deployment by `deployer`: counters zero, fee 25
(2.5% in tenth-of-percent units), all mappings empty. -/
def initialState (deployer : Nat) : GState :=
  { tokenIdCounter := 0, platformFee := 25, contractOwner := deployer,
    owners := fun _ => none, tokenURIs := fun _ => "",
    artworks := fun _ => none, galleries := fun _ => none,
    reviews := fun _ => [], hasRated := fun _ _ => false,
    userArtworks := fun _ => [], userGalleries := fun _ => [],
    eventLog := [] }

/-- `galleries[g].isActive` as the source reads it (absent key ⇒ false). -/
def galleryActive (s : GState) (g : String) : Bool :=
  match s.galleries g with
  | some gal => gal.isActive
  | none => false

/-- EVM revert semantics: a failing call leaves the previous state. -/
def commit (s : GState) : Except GError GState → GState
  | .ok s' => s'
  | .error _ => s

/-- `createGallery(galleryId, name, description)` called by `caller` at
time `t`. -/
def createGallery (s : GState) (galleryId name description : String)
    (caller t : Nat) : Except GError GState :=
  if galleryId.length = 0 then .error .invalidArgument
  else if name.length = 0 then .error .invalidArgument
  else if galleryActive s galleryId then .error .alreadyExists
  else .ok
    { s with
      galleries := fun g =>
        if g = galleryId then
          some { name := name, curator := caller, artworkIds := [],
                 isActive := true, description := description, createdAt := t }
        else s.galleries g,
      userGalleries := fun u =>
        if u = caller then s.userGalleries u ++ [galleryId]
        else s.userGalleries u,
      eventLog := s.eventLog ++ [.GalleryCreated galleryId name caller] }

/-- `createArtwork(title, tokenURI, price, galleryId, royaltyPercentage)`
called by `caller` at time `t`; returns the new state and the new token id. -/
def createArtwork (s : GState) (title uri : String) (price : Nat)
    (galleryId : String) (royaltyPercentage caller t : Nat) :
    Except GError (GState × Nat) :=
  if title.length = 0 then .error .invalidArgument
  else if price = 0 then .error .invalidArgument
  else if ¬ galleryActive s galleryId then .error .notFound
  else if 100 < royaltyPercentage then .error .invalidArgument
  else
    let newId := s.tokenIdCounter + 1
    if caller = 0 then .error .zeroAddress
    else if (s.owners newId).isSome then .error .alreadyMinted
    else .ok (
      { s with
        tokenIdCounter := newId,
        owners := fun j => if j = newId then some caller else s.owners j,
        tokenURIs := fun j => if j = newId then uri else s.tokenURIs j,
        artworks := fun j =>
          if j = newId then
            some { title := title, artist := caller, price := price,
                   forSale := true, totalRatings := 0, ratingSum := 0,
                   galleryId := galleryId,
                   royaltyPercentage := royaltyPercentage, createdAt := t }
          else s.artworks j,
        galleries := fun g =>
          if g = galleryId then
            (s.galleries g).map (fun gal =>
              { gal with artworkIds := gal.artworkIds ++ [newId] })
          else s.galleries g,
        userArtworks := fun u =>
          if u = caller then s.userArtworks u ++ [newId]
          else s.userArtworks u,
        eventLog := s.eventLog ++ [.ArtworkCreated newId title caller price] },
      newId)

/-- One primitive step `purchaseArtwork` performs after its checks pass, in
source order: an outward value transfer (`payable(x).transfer(amount)`), a
storage mutation of the token's owner (`_transfer`), a storage mutation of
the `forSale` flag, or an event emission. -/
inductive Act where
  | payTransfer (recipient amount : Nat)
  | setOwner (tokenId newOwner : Nat)
  | setForSale (tokenId : Nat) (b : Bool)
  | emitEvent (e : Event)
deriving Repr, DecidableEq

/-- Is the action an outward payment transfer? -/
def Act.isTransfer : Act → Bool
  | .payTransfer _ _ => true
  | _ => false

/-- Is the action a storage mutation (owner or forSale)? -/
def Act.isMutation : Act → Bool
  | .setOwner _ _ => true
  | .setForSale _ _ => true
  | _ => false

/-- `true` iff some storage mutation occurs strictly after some outward
transfer in the trace. -/
def hasMutationAfterTransfer : List Act → Bool
  | [] => false
  | a :: rest =>
    (a.isTransfer && rest.any Act.isMutation) || hasMutationAfterTransfer rest

/-- Apply one `Act` to storage.  `payTransfer` moves ether, not
storage, so it leaves the state unchanged; events append to the log. -/
def applyAction (s : GState) : Act → GState
  | .payTransfer _ _ => s
  | .setOwner tokenId newOwner =>
    { s with owners := fun j => if j = tokenId then some newOwner else s.owners j }
  | .setForSale tokenId b =>
    { s with artworks := fun j =>
        if j = tokenId then (s.artworks j).map (fun a => { a with forSale := b })
        else s.artworks j }
  | .emitEvent e => { s with eventLog := s.eventLog ++ [e] }

/-- The checks and the ordered trace of `purchaseArtwork(tokenId)` called
by `caller` with `msg.value = value`.  Trace order follows the source:
royalty transfer and `RoyaltyPaid` first (secondary sale only), then the
ownership transfer, then the platform-fee and seller transfers, then
`forSale := false`, then `ArtworkSold`.  The seller-proceeds expression
`msg.value - platformFeeAmount - royaltyAmount` uses 0.8 checked
subtraction evaluated left to right, so each step that would underflow
reverts the whole call (`panicUnderflow`), rolling back every prior
transfer and write. -/
def purchaseActions (s : GState) (tokenId caller value : Nat) :
    Except GError (List Act) :=
  match s.owners tokenId with
  | none => .error .notFound
  | some seller =>
    let a := (s.artworks tokenId).getD defaultArtwork
    if ¬ a.forSale then .error .notForSale
    else if value < a.price then .error .insufficientPayment
    else
      let platformFeeAmount := value * s.platformFee / 1000
      let royaltyAmount := if seller ≠ a.artist then value * a.royaltyPercentage / 100 else 0
      let royaltySteps : List Act :=
        if seller ≠ a.artist then
          [.payTransfer a.artist royaltyAmount,
           .emitEvent (.RoyaltyPaid tokenId a.artist royaltyAmount)]
        else []
      if value < platformFeeAmount then .error .panicUnderflow
      else if value - platformFeeAmount < royaltyAmount then .error .panicUnderflow
      else .ok (royaltySteps ++
        [.setOwner tokenId caller,
         .payTransfer s.contractOwner platformFeeAmount,
         .payTransfer seller (value - platformFeeAmount - royaltyAmount),
         .setForSale tokenId false,
         .emitEvent (.ArtworkSold tokenId seller caller value)])

/-- `purchaseArtwork(tokenId)`: run the checks, then apply the action
trace in order. -/
def purchaseArtwork (s : GState) (tokenId caller value : Nat) :
    Except GError GState :=
  (purchaseActions s tokenId caller value).map (fun as => as.foldl applyAction s)

/-- `addReview(tokenId, comment, rating)` called by `caller` at time `t`. -/
def addReview (s : GState) (tokenId : Nat) (comment : String)
    (rating caller t : Nat) : Except GError GState :=
  if (s.owners tokenId).isNone then .error .notFound
  else if ¬ (1 ≤ rating ∧ rating ≤ 5) then .error .invalidArgument
  else if s.hasRated tokenId caller then .error .alreadyRated
  else
    let a := (s.artworks tokenId).getD defaultArtwork
    .ok { s with
      reviews := fun j =>
        if j = tokenId then
          s.reviews j ++ [{ reviewer := caller, comment := comment,
                            rating := rating, timestamp := t }]
        else s.reviews j,
      artworks := fun j =>
        if j = tokenId then
          some { a with totalRatings := a.totalRatings + 1,
                        ratingSum := a.ratingSum + rating }
        else s.artworks j,
      hasRated := fun j u =>
        if j = tokenId ∧ u = caller then true else s.hasRated j u,
      eventLog := s.eventLog ++ [.ReviewAdded tokenId caller comment rating] }

/-- Read snapshot returned by `getArtwork`: title, artist, price, forSale,
computed average rating, galleryId, royaltyPercentage. -/
structure ArtworkView where
  title : String
  artist : Nat
  price : Nat
  forSale : Bool
  avgRating : Nat
  galleryId : String
  royaltyPercentage : Nat
deriving Repr, DecidableEq

/-- `getArtwork(tokenId)`: the view with
`avgRating = totalRatings > 0 ? ratingSum / totalRatings : 0`. -/
def getArtwork (s : GState) (tokenId : Nat) : Except GError ArtworkView :=
  if (s.owners tokenId).isNone then .error .notFound
  else
    let a := (s.artworks tokenId).getD defaultArtwork
    .ok { title := a.title, artist := a.artist, price := a.price,
          forSale := a.forSale,
          avgRating := if 0 < a.totalRatings then a.ratingSum / a.totalRatings else 0,
          galleryId := a.galleryId,
          royaltyPercentage := a.royaltyPercentage }

/-- `getUserArtworks(user)`. -/
def getUserArtworks (s : GState) (user : Nat) : List Nat :=
  s.userArtworks user

/-- `updatePlatformFee(newFee)` (onlyOwner, capped at 100 = 10%). -/
def updatePlatformFee (s : GState) (newFee caller : Nat) : Except GError GState :=
  if caller ≠ s.contractOwner then .error .unauthorized
  else if 100 < newFee then .error .invalidArgument
  else .ok { s with platformFee := newFee }

/-- Modelled from the spec: the `updatePrice` function is not present in
the contract source (only its `PriceUpdated` event is declared there), so
this definition follows §4.2 of the specification verbatim: fail
`NotFound` if the id is unknown, `Unauthorized` if the caller is not the
current owner, `InvalidArgument` if the new price is ≤ 0 (zero, over
`Nat`); otherwise set the price, set `forSale := true`, and emit
`PriceUpdated`. -/
def updatePrice (s : GState) (tokenId newPrice caller : Nat) :
    Except GError GState :=
  match s.owners tokenId with
  | none => .error .notFound
  | some owner =>
    if caller ≠ owner then .error .unauthorized
    else if newPrice = 0 then .error .invalidArgument
    else
      let a := (s.artworks tokenId).getD defaultArtwork
      .ok { s with
        artworks := fun j =>
          if j = tokenId then some { a with price := newPrice, forSale := true }
          else s.artworks j,
        eventLog := s.eventLog ++ [.PriceUpdated tokenId newPrice] }

/-- The mutating public calls, for whole-trace statements. -/
inductive Op where
  | opCreateGallery (galleryId name description : String) (caller t : Nat)
  | opCreateArtwork (title uri : String) (price : Nat) (galleryId : String)
      (royaltyPercentage caller t : Nat)
  | opPurchase (tokenId caller value : Nat)
  | opAddReview (tokenId : Nat) (comment : String) (rating caller t : Nat)
  | opUpdateFee (newFee caller : Nat)
  | opUpdatePrice (tokenId newPrice caller : Nat)

/-- Run one public call, keeping only the state. -/
def applyOp (s : GState) : Op → Except GError GState
  | .opCreateGallery g n d c t => createGallery s g n d c t
  | .opCreateArtwork ti u p g r c t => (createArtwork s ti u p g r c t).map Prod.fst
  | .opPurchase id c v => purchaseArtwork s id c v
  | .opAddReview id cm r c t => addReview s id cm r c t
  | .opUpdateFee f c => updatePlatformFee s f c
  | .opUpdatePrice id p c => updatePrice s id p c

/-- One transaction: a failing call reverts to the pre-state. -/
def step (s : GState) (op : Op) : GState :=
  commit s (applyOp s op)

/-- All token ids with an owner are bounded by the id counter: the key
invariant behind id freshness. -/
def Bounded (s : GState) : Prop :=
  ∀ j, (s.owners j).isSome → j ≤ s.tokenIdCounter

/-- A state the deployed contract can actually be in: some sequence of
public calls from a fresh deployment. -/
def Reachable (s : GState) : Prop :=
  ∃ d ops, s = List.foldl step (initialState d) ops

/-- Scenario: fresh deployment by account 1. -/
def stDeploy : GState := initialState 1

/-- Scenario: account 2 creates gallery "g". -/
def stGal : GState := step stDeploy (.opCreateGallery "g" "Main" "d" 2 0)

/-- Scenario: account 2 creates artwork 1 (price 100, royalty 10%) in "g". -/
def stArt : GState := step stGal (.opCreateArtwork "A" "u" 100 "g" 10 2 1)

/-- Post-state of the scenario purchase: buyer 3 buys artwork 1 from the
creator 2 in `stArt`. -/
def stSold : GState := step stArt (.opPurchase 1 3 100)

/-- Scenario: account 10 reviews artwork 1 with rating 4. -/
def stRev1 : GState := step stArt (.opAddReview 1 "good" 4 10 2)

/-- Scenario: account 11 reviews artwork 1 with rating 2. -/
def stRev2 : GState := step stRev1 (.opAddReview 1 "meh" 2 11 3)

/-- An artwork listed for sale by a non-creator owner (secondary sale):
creator 4, price 100, royalty 10%. -/
def artSec : Artwork :=
  { title := "B", artist := 4, price := 100, forSale := true,
    totalRatings := 0, ratingSum := 0, galleryId := "g",
    royaltyPercentage := 10, createdAt := 0 }

/-- State where account 2 (not the creator 4) owns artwork 1 = `artSec`. -/
def stSec : GState :=
  { initialState 1 with
    owners := fun j => if j = 1 then some 2 else none,
    artworks := fun j => if j = 1 then some artSec else none }

/-- An artwork with a 100% royalty listed by a non-creator owner:
creator 4, price 1. -/
def artRoy : Artwork :=
  { title := "R", artist := 4, price := 1, forSale := true,
    totalRatings := 0, ratingSum := 0, galleryId := "g",
    royaltyPercentage := 100, createdAt := 0 }

/-- State where account 2 (not the creator 4) owns artwork 1 = `artRoy`;
the platform fee is the deployment default 25 (2.5%). -/
def stRoy : GState :=
  { initialState 1 with
    owners := fun j => if j = 1 then some 2 else none,
    artworks := fun j => if j = 1 then some artRoy else none }

/-- An existing artwork that is not for sale (price 5). -/
def artOff : Artwork :=
  { title := "C", artist := 2, price := 5, forSale := false,
    totalRatings := 0, ratingSum := 0, galleryId := "g",
    royaltyPercentage := 10, createdAt := 0 }

/-- State where account 2 owns artwork 1 = `artOff` (not for sale). -/
def stOff : GState :=
  { initialState 1 with
    owners := fun j => if j = 1 then some 2 else none,
    artworks := fun j => if j = 1 then some artOff else none }

/-- Characterisation of a successful `purchaseArtwork` run: the checks
that must have passed and the exact ordered action trace. -/
theorem purchaseActions_ok_shape (s : GState) (tokenId caller value : Nat)
    (as : List Act) (h : purchaseActions s tokenId caller value = Except.ok as) :
    ∃ seller a f r,
      s.owners tokenId = some seller ∧
      (s.artworks tokenId).getD defaultArtwork = a ∧
      f = value * s.platformFee / 1000 ∧
      r = (if seller ≠ a.artist then value * a.royaltyPercentage / 100 else 0) ∧
      a.forSale = true ∧ a.price ≤ value ∧ f ≤ value ∧ r ≤ value - f ∧
      as = (if seller ≠ a.artist then
              [Act.payTransfer a.artist r,
               Act.emitEvent (Event.RoyaltyPaid tokenId a.artist r)]
            else []) ++
           [Act.setOwner tokenId caller,
            Act.payTransfer s.contractOwner f,
            Act.payTransfer seller (value - f - r),
            Act.setForSale tokenId false,
            Act.emitEvent (Event.ArtworkSold tokenId seller caller value)] := by
  unfold purchaseActions at h
  cases hos : s.owners tokenId with
  | none => rw [hos] at h; exact absurd h (by simp)
  | some seller =>
    rw [hos] at h
    simp only [] at h
    refine ⟨seller, (s.artworks tokenId).getD defaultArtwork,
      value * s.platformFee / 1000,
      (if seller ≠ ((s.artworks tokenId).getD defaultArtwork).artist then
        value * ((s.artworks tokenId).getD defaultArtwork).royaltyPercentage / 100
       else 0), rfl, rfl, rfl, rfl, ?_⟩
    split_ifs at h with h1 h2 h3 h4 h5
    all_goals simp_all

/-- No purchase action touches the per-user owned-asset index. -/
theorem applyAct_userArtworks (s : GState) (act : Act) :
    (applyAction s act).userArtworks = s.userArtworks := by
  cases act <;> rfl

/-- No purchase action touches the token id counter. -/
theorem applyAct_tokenIdCounter (s : GState) (act : Act) :
    (applyAction s act).tokenIdCounter = s.tokenIdCounter := by
  cases act <;> rfl

/-- Folding any purchase trace leaves the owned-asset index unchanged. -/
theorem foldl_userArtworks (as : List Act) (s : GState) :
    (as.foldl applyAction s).userArtworks = s.userArtworks := by
  induction as generalizing s with
  | nil => rfl
  | cons a rest ih => rw [List.foldl_cons, ih, applyAct_userArtworks]

/-- Folding any purchase trace leaves the token id counter unchanged. -/
theorem foldl_tokenIdCounter (as : List Act) (s : GState) :
    (as.foldl applyAction s).tokenIdCounter = s.tokenIdCounter := by
  induction as generalizing s with
  | nil => rfl
  | cons a rest ih => rw [List.foldl_cons, ih, applyAct_tokenIdCounter]

/-- An action can only put an owner on a token that it names: folding a
trace keeps every token unowned that no `setOwner` in the trace names. -/
theorem applyAct_owners_isSome (s : GState) (act : Act) (j : Nat)
    (h : ((applyAction s act).owners j).isSome) :
    (s.owners j).isSome ∨ ∃ w, act = Act.setOwner j w := by
  cases act with
  | setOwner id w =>
    by_cases hj : j = id
    · exact Or.inr ⟨w, by rw [hj]⟩
    · left
      simpa [applyAction, hj] using h
  | payTransfer r amt => exact Or.inl h
  | setForSale id b => exact Or.inl h
  | emitEvent e => exact Or.inl h

/-- Folding a trace can only add owners at tokens named by a `setOwner`
in the trace. -/
theorem foldl_owners_isSome (as : List Act) (s : GState) (j : Nat)
    (h : ((as.foldl applyAction s).owners j).isSome) :
    (s.owners j).isSome ∨ ∃ w, Act.setOwner j w ∈ as := by
  induction as generalizing s with
  | nil => exact Or.inl h
  | cons a rest ih =>
    rw [List.foldl_cons] at h
    rcases ih (applyAction s a) h with h1 | ⟨w, hw⟩
    · rcases applyAct_owners_isSome s a j h1 with h2 | ⟨w, hw⟩
      · exact Or.inl h2
      · exact Or.inr ⟨w, by rw [hw]; exact List.mem_cons_self _ _⟩
    · exact Or.inr ⟨w, List.mem_cons_of_mem _ hw⟩

/-- Post-state of a successful purchase: the owner map is updated at the
purchased token only, and counter and owned-asset index are unchanged. -/
theorem purchase_ok_post (s s' : GState) (tokenId caller value : Nat)
    (h : purchaseArtwork s tokenId caller value = Except.ok s') :
    s'.tokenIdCounter = s.tokenIdCounter ∧
    s'.userArtworks = s.userArtworks ∧
    (s.owners tokenId).isSome ∧
    (∀ j, (s'.owners j).isSome → j = tokenId ∨ (s.owners j).isSome) := by
  unfold purchaseArtwork at h
  cases hpa : purchaseActions s tokenId caller value with
  | error e => rw [hpa] at h; exact absurd h (by simp [Except.map])
  | ok as =>
    rw [hpa] at h
    simp only [Except.map, Except.ok.injEq] at h
    obtain ⟨seller, a, f, r, hos, ha, hf, hr, hsale, hprice, hle1, hle2, hshape⟩ :=
      purchaseActions_ok_shape s tokenId caller value as hpa
    subst hshape
    subst h
    constructor
    · rw [foldl_tokenIdCounter]
    constructor
    · rw [foldl_userArtworks]
    constructor
    · rw [hos]; rfl
    · intro j hj
      rcases foldl_owners_isSome _ s j hj with h1 | ⟨w, hw⟩
      · exact Or.inr h1
      · left
        rcases List.mem_append.mp hw with hmem | hmem
        · split_ifs at hmem <;> simp_all
        · simp_all

/-- A succeeding call commits its post-state. -/
theorem step_of_ok (s s' : GState) (op : Op) (h : applyOp s op = Except.ok s') :
    step s op = s' := by
  unfold step
  rw [h]
  rfl

/-- A reverting call leaves the state unchanged. -/
theorem step_of_error (s : GState) (op : Op) (e : GError)
    (h : applyOp s op = Except.error e) : step s op = s := by
  unfold step
  rw [h]
  rfl

/-- A successful `createGallery` touches neither ownership nor the id
counter. -/
theorem createGallery_ok_fields (s s' : GState) (g n d : String) (c t : Nat)
    (h : createGallery s g n d c t = Except.ok s') :
    s'.owners = s.owners ∧ s'.tokenIdCounter = s.tokenIdCounter := by
  unfold createGallery at h
  split_ifs at h <;> simp_all
  rw [← h]
  exact ⟨rfl, rfl⟩

/-- A successful `createArtwork` returns exactly counter + 1 as the new
id, advances the counter to it, mints it to the caller, and the id was
previously unminted. -/
theorem createArtwork_ok_fields (s s' : GState) (ti u : String) (p : Nat)
    (g : String) (pct c t newId : Nat)
    (h : createArtwork s ti u p g pct c t = Except.ok (s', newId)) :
    newId = s.tokenIdCounter + 1 ∧ s'.tokenIdCounter = newId ∧
    s.owners newId = none ∧
    s'.owners = fun j => if j = newId then some c else s.owners j := by
  unfold createArtwork at h
  split_ifs at h with h1 h2 h3 h4 h5 <;> simp_all
  split_ifs at h with h6
  rw [Except.ok.injEq, Prod.mk.injEq] at h
  obtain ⟨hs, hid⟩ := h
  subst hid
  refine ⟨rfl, ?_, ?_, ?_⟩
  · rw [← hs]
  · exact Option.not_isSome_iff_eq_none.mp h6
  · rw [← hs]

/-- A successful `addReview` touches neither ownership nor the id
counter. -/
theorem addReview_ok_fields (s s' : GState) (tokenId : Nat) (cm : String)
    (r c t : Nat) (h : addReview s tokenId cm r c t = Except.ok s') :
    s'.owners = s.owners ∧ s'.tokenIdCounter = s.tokenIdCounter := by
  unfold addReview at h
  split_ifs at h <;> simp_all
  rw [← h]
  exact ⟨rfl, rfl⟩

/-- A successful `updatePlatformFee` touches neither ownership nor the id
counter. -/
theorem updateFee_ok_fields (s s' : GState) (f c : Nat)
    (h : updatePlatformFee s f c = Except.ok s') :
    s'.owners = s.owners ∧ s'.tokenIdCounter = s.tokenIdCounter := by
  unfold updatePlatformFee at h
  split_ifs at h <;> simp_all
  rw [← h]
  exact ⟨rfl, rfl⟩

/-- A successful `updatePrice` touches neither ownership nor the id
counter. -/
theorem updatePrice_ok_fields (s s' : GState) (tokenId p c : Nat)
    (h : updatePrice s tokenId p c = Except.ok s') :
    s'.owners = s.owners ∧ s'.tokenIdCounter = s.tokenIdCounter := by
  unfold updatePrice at h
  cases hos : s.owners tokenId with
  | none => rw [hos] at h; exact absurd h (by simp)
  | some o =>
    rw [hos] at h
    by_cases hc : c = o
    · simp only [hc, ne_eq, not_true_eq_false, if_false, ite_false, reduceIte] at h
      split_ifs at h <;> simp_all
      rw [← h]
      exact ⟨rfl, rfl⟩
    · simp only [ne_eq, hc, not_false_eq_true, if_true, ite_true, reduceIte] at h
      exact absurd h (by simp)

/-- One transaction never decreases the token id counter. -/
theorem step_counter_mono (s : GState) (op : Op) :
    s.tokenIdCounter ≤ (step s op).tokenIdCounter := by
  cases hap : applyOp s op with
  | error e => rw [step_of_error s op e hap]
  | ok s' =>
    rw [step_of_ok s s' op hap]
    cases op with
    | opCreateGallery g n d c t =>
      rw [(createGallery_ok_fields s s' g n d c t hap).2]
    | opCreateArtwork ti u p g pct c t =>
      simp only [applyOp] at hap
      cases hc : createArtwork s ti u p g pct c t with
      | error e => rw [hc] at hap; exact absurd hap (by simp [Except.map])
      | ok pr =>
        rw [hc] at hap
        simp only [Except.map, Except.ok.injEq] at hap
        obtain ⟨h1, h2, _, _⟩ := createArtwork_ok_fields s pr.1 ti u p g pct c t pr.2 hc
        rw [← hap]
        omega
    | opPurchase id c v =>
      rw [(purchase_ok_post s s' id c v hap).1]
    | opAddReview id cm r c t =>
      rw [(addReview_ok_fields s s' id cm r c t hap).2]
    | opUpdateFee f c =>
      rw [(updateFee_ok_fields s s' f c hap).2]
    | opUpdatePrice id p c =>
      rw [(updatePrice_ok_fields s s' id p c hap).2]

/-- Every transaction preserves the owner-id bound. -/
theorem step_preserves_bounded (s : GState) (op : Op) (hb : Bounded s) :
    Bounded (step s op) := by
  cases hap : applyOp s op with
  | error e => rw [step_of_error s op e hap]; exact hb
  | ok s' =>
    rw [step_of_ok s s' op hap]
    cases op with
    | opCreateGallery g n d c t =>
      obtain ⟨ho, hn⟩ := createGallery_ok_fields s s' g n d c t hap
      intro j hj
      rw [ho] at hj
      rw [hn]
      exact hb j hj
    | opCreateArtwork ti u p g pct c t =>
      simp only [applyOp] at hap
      cases hc : createArtwork s ti u p g pct c t with
      | error e => rw [hc] at hap; exact absurd hap (by simp [Except.map])
      | ok pr =>
        rw [hc] at hap
        simp only [Except.map, Except.ok.injEq] at hap
        obtain ⟨h1, h2, h3, h4⟩ := createArtwork_ok_fields s pr.1 ti u p g pct c t pr.2 hc
        intro j hj
        rw [← hap] at hj
        rw [h4] at hj
        rw [← hap, h2]
        by_cases hje : j = pr.2
        · omega
        · simp only [hje, if_false, ite_false, reduceIte] at hj
          have := hb j hj
          omega
    | opPurchase id c v =>
      obtain ⟨hn, _, hid, ho⟩ := purchase_ok_post s s' id c v hap
      intro j hj
      rw [hn]
      rcases ho j hj with hje | hjs
      · subst hje; exact hb j hid
      · exact hb j hjs
    | opAddReview id cm r c t =>
      obtain ⟨ho, hn⟩ := addReview_ok_fields s s' id cm r c t hap
      intro j hj
      rw [ho] at hj
      rw [hn]
      exact hb j hj
    | opUpdateFee f c =>
      obtain ⟨ho, hn⟩ := updateFee_ok_fields s s' f c hap
      intro j hj
      rw [ho] at hj
      rw [hn]
      exact hb j hj
    | opUpdatePrice id p c =>
      obtain ⟨ho, hn⟩ := updatePrice_ok_fields s s' id p c hap
      intro j hj
      rw [ho] at hj
      rw [hn]
      exact hb j hj

/-- Running any transaction sequence preserves the owner-id bound. -/
theorem foldl_preserves_bounded (ops : List Op) (s : GState) (hb : Bounded s) :
    Bounded (List.foldl step s ops) := by
  induction ops generalizing s with
  | nil => exact hb
  | cons op rest ih =>
    rw [List.foldl_cons]
    exact ih _ (step_preserves_bounded s op hb)

/-- Every reachable state satisfies the owner-id bound. -/
theorem reachable_bounded (s : GState) (hr : Reachable s) : Bounded s := by
  obtain ⟨d, ops, hs⟩ := hr
  subst hs
  refine foldl_preserves_bounded ops (initialState d) ?_
  intro j hj
  exact absurd hj (by simp [initialState])

/-- C4: for every existing asset whose forSale flag is false,
`purchaseArtwork` fails with NotForSale for every caller and every
payment amount, including payments at or above the asset's price. -/
theorem C4_purchase_notForSale (s : GState) (tokenId seller : Nat)
    (hown : s.owners tokenId = some seller)
    (hfs : ((s.artworks tokenId).getD defaultArtwork).forSale = false) :
    ∀ caller value : Nat,
      purchaseArtwork s tokenId caller value = Except.error GError.notForSale := by
  intro caller value
  unfold purchaseArtwork purchaseActions
  rw [hown]
  simp [hfs, Except.map]

/-- Witness for C4: artwork 1 in `stOff` exists (owner 2), is not for
sale, and a purchase attempt by 3 paying 100 (well above the price 5)
fails with NotForSale. -/
theorem C4_witness :
    purchaseArtwork stOff 1 3 100 = Except.error GError.notForSale :=
  C4_purchase_notForSale stOff 1 2 rfl rfl 3 100

/-- C5: for every successful purchase where the seller is the asset's
creator (primary sale), the royalty deducted is 0 — the trace is exactly
ownership transfer, fee transfer, seller transfer of the full remainder
`value - fee - 0`, forSale reset and the sale event — and no RoyaltyPaid
event is emitted, regardless of the asset's royalty fraction. -/
theorem C5_primary_sale_no_royalty (s : GState)
    (tokenId caller value seller : Nat) (as : List Act)
    (hown : s.owners tokenId = some seller)
    (hart : seller = ((s.artworks tokenId).getD defaultArtwork).artist)
    (hok : purchaseActions s tokenId caller value = Except.ok as) :
    as = [Act.setOwner tokenId caller,
          Act.payTransfer s.contractOwner (value * s.platformFee / 1000),
          Act.payTransfer seller (value - value * s.platformFee / 1000 - 0),
          Act.setForSale tokenId false,
          Act.emitEvent (Event.ArtworkSold tokenId seller caller value)] ∧
    ∀ artist amount,
      Act.emitEvent (Event.RoyaltyPaid tokenId artist amount) ∉ as := by
  obtain ⟨seller', a, f, r, hos, ha, hf, hr, hsale, hprice, hle1, hle2, hshape⟩ :=
    purchaseActions_ok_shape s tokenId caller value as hok
  rw [hown] at hos
  obtain rfl : seller = seller' := Option.some.inj hos
  rw [ha] at hart
  have hni : ¬ (seller ≠ a.artist) := not_not_intro hart
  rw [if_neg hni] at hshape
  rw [if_neg hni] at hr
  subst hr
  subst hf
  rw [List.nil_append] at hshape
  subst hshape
  refine ⟨rfl, ?_⟩
  intro artist amount
  simp

/-- Witness for C5: in the scenario state `stArt` the creator 2 still
owns artwork 1, so buyer 3 paying 100 is a primary sale; the trace is
fee 2 to the deployer and 98 to the seller, with no RoyaltyPaid. -/
theorem C5_witness :
    [Act.setOwner 1 3, Act.payTransfer 1 (100 * stArt.platformFee / 1000),
     Act.payTransfer 2 (100 - 100 * stArt.platformFee / 1000 - 0),
     Act.setForSale 1 false, Act.emitEvent (Event.ArtworkSold 1 2 3 100)] =
      [Act.setOwner 1 3, Act.payTransfer 1 (100 * stArt.platformFee / 1000),
       Act.payTransfer 2 (100 - 100 * stArt.platformFee / 1000 - 0),
       Act.setForSale 1 false, Act.emitEvent (Event.ArtworkSold 1 2 3 100)] ∧
    ∀ artist amount,
      Act.emitEvent (Event.RoyaltyPaid 1 artist amount) ∉
        [Act.setOwner 1 3, Act.payTransfer 1 (100 * stArt.platformFee / 1000),
         Act.payTransfer 2 (100 - 100 * stArt.platformFee / 1000 - 0),
         Act.setForSale 1 false, Act.emitEvent (Event.ArtworkSold 1 2 3 100)] := by
  have h := C5_primary_sale_no_royalty stArt 1 3 100 2
    [Act.setOwner 1 3, Act.payTransfer 1 (100 * stArt.platformFee / 1000),
     Act.payTransfer 2 (100 - 100 * stArt.platformFee / 1000 - 0),
     Act.setForSale 1 false, Act.emitEvent (Event.ArtworkSold 1 2 3 100)]
    rfl rfl rfl
  exact ⟨h.1.symm ▸ rfl, h.2⟩

/-- C2: for every successful purchase where the seller is not the
creator, the royalty is `⌊value·royaltyPercentage/100⌋`, the platform fee
is `⌊value·platformFee/1000⌋`, the seller receives exactly
`value - fee - royalty`, and the three amounts sum back to the full
payment. -/
theorem C2_secondary_sale_split (s : GState)
    (tokenId caller value seller : Nat) (as : List Act)
    (hown : s.owners tokenId = some seller)
    (hart : seller ≠ ((s.artworks tokenId).getD defaultArtwork).artist)
    (hok : purchaseActions s tokenId caller value = Except.ok as) :
    as = [Act.payTransfer ((s.artworks tokenId).getD defaultArtwork).artist
            (value * ((s.artworks tokenId).getD defaultArtwork).royaltyPercentage / 100),
          Act.emitEvent (Event.RoyaltyPaid tokenId
            ((s.artworks tokenId).getD defaultArtwork).artist
            (value * ((s.artworks tokenId).getD defaultArtwork).royaltyPercentage / 100)),
          Act.setOwner tokenId caller,
          Act.payTransfer s.contractOwner (value * s.platformFee / 1000),
          Act.payTransfer seller
            (value - value * s.platformFee / 1000 -
             value * ((s.artworks tokenId).getD defaultArtwork).royaltyPercentage / 100),
          Act.setForSale tokenId false,
          Act.emitEvent (Event.ArtworkSold tokenId seller caller value)] ∧
    value * ((s.artworks tokenId).getD defaultArtwork).royaltyPercentage / 100 +
      value * s.platformFee / 1000 +
      (value - value * s.platformFee / 1000 -
       value * ((s.artworks tokenId).getD defaultArtwork).royaltyPercentage / 100) =
      value := by
  obtain ⟨seller', a, f, r, hos, ha, hf, hr, hsale, hprice, hle1, hle2, hshape⟩ :=
    purchaseActions_ok_shape s tokenId caller value as hok
  rw [hown] at hos
  obtain rfl : seller = seller' := Option.some.inj hos
  subst ha
  rw [if_pos hart] at hshape
  rw [if_pos hart] at hr
  subst hr
  subst hf
  subst hshape
  constructor
  · rfl
  · omega

/-- Witness for C2: in `stSec` the owner 2 is not the creator 4; a
purchase of artwork 1 by 3 paying 100 yields royalty 10, platform fee 2,
seller proceeds 88, and 10 + 2 + 88 = 100. -/
theorem C2_witness :
    purchaseActions stSec 1 3 100 = Except.ok
      [Act.payTransfer 4 10, Act.emitEvent (Event.RoyaltyPaid 1 4 10),
       Act.setOwner 1 3, Act.payTransfer 1 2, Act.payTransfer 2 88,
       Act.setForSale 1 false, Act.emitEvent (Event.ArtworkSold 1 2 3 100)] ∧
    10 + 2 + 88 = 100 := by
  have h := C2_secondary_sale_split stSec 1 3 100 2
    [Act.payTransfer 4 10, Act.emitEvent (Event.RoyaltyPaid 1 4 10),
     Act.setOwner 1 3, Act.payTransfer 1 2, Act.payTransfer 2 88,
     Act.setForSale 1 false, Act.emitEvent (Event.ArtworkSold 1 2 3 100)]
    rfl (by decide) rfl
  exact ⟨rfl, h.2⟩

/-- C1 (amended): in every successful `purchaseArtwork`, the actual order
is: royalty transfer and RoyaltyPaid first (secondary sale only), then
the ownership mutation, then the platform-fee and seller transfers, then
the `forSale := false` mutation, and ArtworkSold is emitted last — so a
state mutation always occurs after an outward transfer has begun, and the
sale event follows the transfers rather than preceding them. -/
theorem C1_transfer_before_mutation (s : GState)
    (tokenId caller value seller : Nat) (as : List Act)
    (hown : s.owners tokenId = some seller)
    (hok : purchaseActions s tokenId caller value = Except.ok as) :
    as = (if seller ≠ ((s.artworks tokenId).getD defaultArtwork).artist then
            [Act.payTransfer ((s.artworks tokenId).getD defaultArtwork).artist
               (value * ((s.artworks tokenId).getD defaultArtwork).royaltyPercentage / 100),
             Act.emitEvent (Event.RoyaltyPaid tokenId
               ((s.artworks tokenId).getD defaultArtwork).artist
               (value * ((s.artworks tokenId).getD defaultArtwork).royaltyPercentage / 100))]
          else []) ++
         [Act.setOwner tokenId caller,
          Act.payTransfer s.contractOwner (value * s.platformFee / 1000),
          Act.payTransfer seller
            (value - value * s.platformFee / 1000 -
             (if seller ≠ ((s.artworks tokenId).getD defaultArtwork).artist then
                value * ((s.artworks tokenId).getD defaultArtwork).royaltyPercentage / 100
              else 0)),
          Act.setForSale tokenId false,
          Act.emitEvent (Event.ArtworkSold tokenId seller caller value)] ∧
    hasMutationAfterTransfer as = true ∧
    as.getLast? = some (Act.emitEvent (Event.ArtworkSold tokenId seller caller value)) := by
  obtain ⟨seller', a, f, r, hos, ha, hf, hr, hsale, hprice, hle1, hle2, hshape⟩ :=
    purchaseActions_ok_shape s tokenId caller value as hok
  rw [hown] at hos
  obtain rfl : seller = seller' := Option.some.inj hos
  rw [ha]
  subst hf
  subst hr
  subst hshape
  refine ⟨?_, ?_, ?_⟩ <;> by_cases hsec : seller ≠ a.artist <;>
    simp [hsec, hasMutationAfterTransfer, Act.isTransfer, Act.isMutation]

/-- Witness for C1 (amended): the concrete primary sale in `stArt`
(buyer 3 pays 100) has a mutation after the first transfer and emits
ArtworkSold last. -/
theorem C1_witness :
    hasMutationAfterTransfer
      [Act.setOwner 1 3, Act.payTransfer 1 2, Act.payTransfer 2 98,
       Act.setForSale 1 false, Act.emitEvent (Event.ArtworkSold 1 2 3 100)] = true ∧
    List.getLast?
      [Act.setOwner 1 3, Act.payTransfer 1 2, Act.payTransfer 2 98,
       Act.setForSale 1 false, Act.emitEvent (Event.ArtworkSold 1 2 3 100)] =
      some (Act.emitEvent (Event.ArtworkSold 1 2 3 100)) := by
  have h := C1_transfer_before_mutation stArt 1 3 100 2
    [Act.setOwner 1 3, Act.payTransfer 1 2, Act.payTransfer 2 98,
     Act.setForSale 1 false, Act.emitEvent (Event.ArtworkSold 1 2 3 100)]
    rfl rfl
  exact ⟨h.2.1, h.2.2⟩

/-- Counterexample to C1 as stated: in the reachable state `stArt`
(gallery "g", artwork 1 created by 2 at price 100), the purchase by 3
paying 100 produces a trace in which the `forSale := false` mutation
comes after the outward fee and seller transfers, and ArtworkSold is
emitted after the transfers — so it is false that every state mutation
precedes the first outward transfer, and false that the sale event is
emitted before the transfers. -/
theorem C1_counterexample :
    purchaseActions stArt 1 3 100 = Except.ok
      [Act.setOwner 1 3, Act.payTransfer 1 2, Act.payTransfer 2 98,
       Act.setForSale 1 false, Act.emitEvent (Event.ArtworkSold 1 2 3 100)] ∧
    hasMutationAfterTransfer
      [Act.setOwner 1 3, Act.payTransfer 1 2, Act.payTransfer 2 98,
       Act.setForSale 1 false, Act.emitEvent (Event.ArtworkSold 1 2 3 100)] = true :=
  ⟨rfl, rfl⟩

/-- C9: a successful purchase leaves the per-owner owned-asset index
unchanged for every identity — the purchased id is neither removed from
the seller's list nor appended to the buyer's; the index is a historical
record of creations only. -/
theorem C9_purchase_userArtworks_frame (s s' : GState)
    (tokenId caller value : Nat)
    (h : purchaseArtwork s tokenId caller value = Except.ok s') :
    s'.userArtworks = s.userArtworks := by
  exact (purchase_ok_post s s' tokenId caller value h).2.1

/-- Witness for C9: after 3 buys artwork 1 from 2 in the scenario, both
the seller 2's and the buyer 3's owned-asset lists read back unchanged
(and ownership did move to 3). -/
theorem C9_witness :
    getUserArtworks stSold 2 = getUserArtworks stArt 2 ∧
    getUserArtworks stSold 3 = getUserArtworks stArt 3 := by
  have h := C9_purchase_userArtworks_frame stArt stSold 1 3 100 rfl
  exact ⟨congrFun h 2, congrFun h 3⟩

/-- C6: once a caller's review of an asset has succeeded, any second
`addReview` by the same caller on the same asset (with a rating passing
the 1..5 range check) fails with AlreadyRated, and the reverted attempt
leaves the state — in particular the asset's totalRatings, ratingSum and
review sequence — exactly as before the attempt. -/
theorem C6_addReview_alreadyRated (s s1 : GState) (tokenId : Nat)
    (cm1 : String) (r1 c t1 : Nat)
    (hfirst : addReview s tokenId cm1 r1 c t1 = Except.ok s1) :
    ∀ (cm2 : String) (r2 t2 : Nat), 1 ≤ r2 → r2 ≤ 5 →
      addReview s1 tokenId cm2 r2 c t2 = Except.error GError.alreadyRated ∧
      commit s1 (addReview s1 tokenId cm2 r2 c t2) = s1 := by
  unfold addReview at hfirst
  split_ifs at hfirst with hn hr hh <;> simp_all
  intro cm2 r2 t2 h1 h2
  have hno : (s1.owners tokenId).isNone = false := by
    rw [← hfirst]
    simpa [Option.isSome_iff_ne_none] using hn
  have hhr : s1.hasRated tokenId c = true := by
    rw [← hfirst]
    simp
  have herr : addReview s1 tokenId cm2 r2 c t2 = Except.error GError.alreadyRated := by
    unfold addReview
    rw [hno]
    simp [h1, h2, hhr]
  exact ⟨herr, by rw [herr]; rfl⟩

/-- Witness for C6: account 10's first review of artwork 1 succeeds
(`stArt` to `stRev1`); a second attempt by 10 with a valid rating fails
with AlreadyRated and the committed state is still `stRev1`. -/
theorem C6_witness :
    addReview stRev1 1 "again" 5 10 9 = Except.error GError.alreadyRated ∧
    commit stRev1 (addReview stRev1 1 "again" 5 10 9) = stRev1 :=
  C6_addReview_alreadyRated stArt stRev1 1 "good" 4 10 2 rfl "again" 5 9
    (by norm_num) (by norm_num)

/-- C7: for every existing asset, the average rating `getArtwork` returns
is `⌊ratingSum / totalRatings⌋` when there are ratings and 0 otherwise
(integer truncation); in the scenario with exactly the ratings {4, 2} on
artwork 1 it is 3. -/
theorem C7_average_rating (s : GState) (tokenId : Nat) (a : Artwork)
    (hex : (s.owners tokenId).isNone = false)
    (hart : s.artworks tokenId = some a) :
    (getArtwork s tokenId).map ArtworkView.avgRating =
      Except.ok (if 0 < a.totalRatings then a.ratingSum / a.totalRatings else 0) ∧
    (getArtwork stRev2 1).map ArtworkView.avgRating = Except.ok 3 := by
  constructor
  · unfold getArtwork
    rw [hex]
    simp [hart, Except.map]
  · rfl

/-- Witness for C7: artwork 1 in `stRev2` exists, carries ratingSum 6
over 2 ratings, and `getArtwork` reports average 3 = ⌊6/2⌋. -/
theorem C7_witness :
    (getArtwork stRev2 1).map ArtworkView.avgRating =
      Except.ok (if 0 < (2:Nat) then 6 / 2 else 0) ∧
    (getArtwork stRev2 1).map ArtworkView.avgRating = Except.ok 3 :=
  C7_average_rating stRev2 1
    { title := "A", artist := 2, price := 100, forSale := true,
      totalRatings := 2, ratingSum := 6, galleryId := "g",
      royaltyPercentage := 10, createdAt := 1 }
    rfl rfl

/-- C8: from any reachable state, a successful `createArtwork` returns
exactly counter + 1 — strictly greater than every previously issued id —
and advances the counter to it; a failed creation is a no-op (consumes no
id); and no transaction ever decreases the counter, so ids are never
reused. -/
theorem C8_id_monotonic (s : GState) (hr : Reachable s) :
    (∀ (ti u : String) (p : Nat) (g : String) (pct c t : Nat)
        (s' : GState) (newId : Nat),
        createArtwork s ti u p g pct c t = Except.ok (s', newId) →
        newId = s.tokenIdCounter + 1 ∧ s'.tokenIdCounter = newId ∧
        (∀ j, (s.owners j).isSome → j < newId)) ∧
    (∀ (ti u : String) (p : Nat) (g : String) (pct c t : Nat) (e : GError),
        createArtwork s ti u p g pct c t = Except.error e →
        step s (.opCreateArtwork ti u p g pct c t) = s) ∧
    (∀ op, s.tokenIdCounter ≤ (step s op).tokenIdCounter) := by
  have hb := reachable_bounded s hr
  refine ⟨?_, ?_, fun op => step_counter_mono s op⟩
  · intro ti u p g pct c t s' newId h
    obtain ⟨h1, h2, h3, h4⟩ := createArtwork_ok_fields s s' ti u p g pct c t newId h
    refine ⟨h1, h2, ?_⟩
    intro j hj
    have := hb j hj
    omega
  · intro ti u p g pct c t e h
    apply step_of_error s _ e
    simp only [applyOp]
    rw [h]
    rfl

/-- Witness for C8: `stGal` is reachable (deploy by 1, then create
gallery "g"); from it, creating artwork returns id 1 = counter + 1 and
the post-state counter is 1. -/
theorem C8_witness :
    1 = stGal.tokenIdCounter + 1 ∧ stArt.tokenIdCounter = 1 := by
  have h := (C8_id_monotonic stGal
    ⟨1, [Op.opCreateGallery "g" "Main" "d" 2 0], rfl⟩).1
    "A" "u" 100 "g" 10 2 1 stArt 1 rfl
  exact ⟨h.1, h.2.1⟩

/-- C10 (amended): for a secondary purchase of an asset with a 100%
royalty, the royalty equals the full payment, so the seller-proceeds
subtraction underflows and the purchase reverts (mutating nothing)
exactly when the floored platform fee `⌊value·platformFee/1000⌋` is
positive, i.e. when `value·platformFee ≥ 1000`; when the floored fee is
0 the purchase succeeds with the platform and the seller each receiving
0. (Creation does permit royaltyPercentage = 100, so such listings are
constructible.) -/
theorem C10_royalty100 (s : GState)
    (tokenId caller value seller : Nat) (a : Artwork)
    (hown : s.owners tokenId = some seller)
    (hart : s.artworks tokenId = some a)
    (hsale : a.forSale = true)
    (hprice : a.price ≤ value)
    (hsec : seller ≠ a.artist)
    (hroy : a.royaltyPercentage = 100) :
    (purchaseArtwork s tokenId caller value = Except.error GError.panicUnderflow ↔
      1000 ≤ value * s.platformFee) ∧
    (value * s.platformFee < 1000 →
      purchaseActions s tokenId caller value = Except.ok
        [Act.payTransfer a.artist value,
         Act.emitEvent (Event.RoyaltyPaid tokenId a.artist value),
         Act.setOwner tokenId caller,
         Act.payTransfer s.contractOwner 0,
         Act.payTransfer seller 0,
         Act.setForSale tokenId false,
         Act.emitEvent (Event.ArtworkSold tokenId seller caller value)]) := by
  have hva : value * 100 / 100 = value := Nat.mul_div_cancel value (by norm_num)
  by_cases hfee : value * s.platformFee < 1000
  · have hf0 : value * s.platformFee / 1000 = 0 := Nat.div_eq_of_lt hfee
    have hok : purchaseActions s tokenId caller value = Except.ok
        [Act.payTransfer a.artist value,
         Act.emitEvent (Event.RoyaltyPaid tokenId a.artist value),
         Act.setOwner tokenId caller,
         Act.payTransfer s.contractOwner 0,
         Act.payTransfer seller 0,
         Act.setForSale tokenId false,
         Act.emitEvent (Event.ArtworkSold tokenId seller caller value)] := by
      unfold purchaseActions
      rw [hown]
      simp only [hart, Option.getD_some, hroy]
      split_ifs with h1 h2 h3
      all_goals first
        | (exfalso; omega)
        | (exfalso; simp_all; done)
        | (simp [hva, hf0]; done)
    refine ⟨?_, fun _ => hok⟩
    rw [purchaseArtwork, hok]
    simp [Except.map]
    omega
  · have hv1 : 1 ≤ value := by
      rcases Nat.eq_zero_or_pos value with h0 | h1
      · subst h0; simp at hfee
      · exact h1
    have herr : purchaseActions s tokenId caller value =
        Except.error GError.panicUnderflow := by
      unfold purchaseActions
      rw [hown]
      simp only [hart, Option.getD_some, hroy]
      split_ifs with h1 h2 h3
      all_goals first
        | rfl
        | (exfalso; omega)
        | (exfalso; simp_all; done)
    refine ⟨?_, fun hcon => absurd hcon hfee⟩
    rw [purchaseArtwork, herr]
    simp [Except.map]
    omega

/-- Witness for C10 (amended): in `stRoy` (royalty 100%, owner 2,
creator 4, default fee 25), buyer 3 paying 1 has floored fee 0, so the
purchase succeeds, paying the whole 1 to the creator and 0 to the
platform and the seller. -/
theorem C10_witness :
    purchaseActions stRoy 1 3 1 = Except.ok
      [Act.payTransfer 4 1, Act.emitEvent (Event.RoyaltyPaid 1 4 1),
       Act.setOwner 1 3, Act.payTransfer 1 0, Act.payTransfer 2 0,
       Act.setForSale 1 false, Act.emitEvent (Event.ArtworkSold 1 2 3 1)] := by
  have h := C10_royalty100 stRoy 1 3 1 2 artRoy rfl rfl rfl
    (by decide) (by decide) rfl
  exact h.2 (by decide)

/-- Counterexample to C10 as stated: `stRoy` has a positive platform fee
rate (25) and a 100%-royalty asset owned by a non-creator, yet the
purchase by 3 paying 1 does NOT fail — it succeeds with trace shown —
because the floored fee `⌊1·25/1000⌋` is 0. -/
theorem C10_counterexample :
    0 < stRoy.platformFee ∧
    artRoy.royaltyPercentage = 100 ∧
    stRoy.owners 1 = some 2 ∧
    artRoy.artist = 4 ∧
    purchaseActions stRoy 1 3 1 = Except.ok
      [Act.payTransfer 4 1, Act.emitEvent (Event.RoyaltyPaid 1 4 1),
       Act.setOwner 1 3, Act.payTransfer 1 0, Act.payTransfer 2 0,
       Act.setForSale 1 false, Act.emitEvent (Event.ArtworkSold 1 2 3 1)] :=
  ⟨by decide, rfl, rfl, rfl, rfl⟩

/-- C3: `updatePrice` (modelled from the spec, §4.2) fails NotFound on an
unknown id, Unauthorized when the caller is not the current owner,
InvalidArgument when the new price is ≤ 0, and otherwise sets the
asset's price, sets forSale := true, emits PriceUpdated, and leaves
ownership unchanged. -/
theorem C3_updatePrice_spec (s : GState) (tokenId newPrice caller : Nat) :
    (s.owners tokenId = none →
      updatePrice s tokenId newPrice caller = Except.error GError.notFound) ∧
    (∀ owner, s.owners tokenId = some owner → caller ≠ owner →
      updatePrice s tokenId newPrice caller = Except.error GError.unauthorized) ∧
    (∀ owner, s.owners tokenId = some owner → caller = owner → newPrice = 0 →
      updatePrice s tokenId newPrice caller = Except.error GError.invalidArgument) ∧
    (∀ owner, s.owners tokenId = some owner → caller = owner → 0 < newPrice →
      ∃ s', updatePrice s tokenId newPrice caller = Except.ok s' ∧
        (s'.artworks tokenId).map Artwork.price = some newPrice ∧
        (s'.artworks tokenId).map Artwork.forSale = some true ∧
        s'.eventLog = s.eventLog ++ [Event.PriceUpdated tokenId newPrice] ∧
        s'.owners = s.owners) := by
  refine ⟨?_, ?_, ?_, ?_⟩
  · intro h
    unfold updatePrice
    rw [h]
  · intro owner h hc
    unfold updatePrice
    rw [h]
    simp [hc]
  · intro owner h hc hp
    unfold updatePrice
    rw [h]
    simp [hc, hp]
  · intro owner h hc hp
    have hnp : ¬ newPrice = 0 := Nat.pos_iff_ne_zero.mp hp
    refine ⟨{ s with
        artworks := fun j =>
          if j = tokenId then
            some { ((s.artworks tokenId).getD defaultArtwork) with
                   price := newPrice, forSale := true }
          else s.artworks j,
        eventLog := s.eventLog ++ [Event.PriceUpdated tokenId newPrice] },
      ?_, ?_, ?_, rfl, rfl⟩
    · unfold updatePrice
      rw [h]
      simp [hc, hnp]
    · simp
    · simp

/-- Witness for C3: in `stArt` (artwork 1 owned by 2), a non-owner 7
cannot reprice; price 0 is rejected; an unknown id 99 is NotFound; and
the owner 2 repricing to 500 succeeds, setting price 500 and
forSale = true. -/
theorem C3_witness :
    updatePrice stArt 1 500 7 = Except.error GError.unauthorized ∧
    updatePrice stArt 1 0 2 = Except.error GError.invalidArgument ∧
    updatePrice stArt 99 500 2 = Except.error GError.notFound ∧
    ((commit stArt (updatePrice stArt 1 500 2)).artworks 1).map Artwork.price =
      some 500 ∧
    ((commit stArt (updatePrice stArt 1 500 2)).artworks 1).map Artwork.forSale =
      some true := by
  obtain ⟨s', hok, hp, hf, he, ho⟩ :=
    (C3_updatePrice_spec stArt 1 500 2).2.2.2 2 rfl rfl (by norm_num)
  refine ⟨(C3_updatePrice_spec stArt 1 500 7).2.1 2 rfl (by decide),
    (C3_updatePrice_spec stArt 1 0 2).2.2.1 2 rfl rfl rfl,
    (C3_updatePrice_spec stArt 99 500 2).1 rfl, ?_, ?_⟩
  · rw [hok]
    exact hp
  · rw [hok]
    exact hf
